import Mathlib

/-!
Verification development for the maximumPlasoTimelineParser repository.

The repository contains three near-duplicate engines that classify plaso
timeline records and extract per-artifact rows:
  * `MaximumPlasoParserJson.py`  (class `MaximumPlasoParserJson`, "Json variant"),
  * `MaximumPlasoParser.py`      (class `MaximumPlasoParser`, "legacy variant"),
  * `MaximumPlasoParserCSV.py`   (class `MaximumPlasoParserCsv`, "CSV variant").

This file shallowly embeds the classification tables, the record-level
dispatch, and the per-artifact extractors that the checked claims are about.
Python strings are modelled as `List Char` in the computational core, with
`String` at the boundaries.  The `xmltodict` markup parser and the
`datetime` timestamp conversion are external collaborators (spec section 1
places them out of scope); extractors therefore receive the already-parsed
attribute list and the already-converted `(date, time)` pair, exactly the
values the Python code reads out of them.  Everything else (regular
expressions, splitting, sentinel defaults, dispatch guards, write targets)
is embedded from the source.
-/

namespace MPP

/-! ### Basic string machinery (Python `str` operations on `List Char`) -/

/-- Python whitespace test used by `str.strip()` (inputs are ASCII here). -/
def pySpace (c : Char) : Bool := c.isWhitespace

/-- Python `str.strip()`: drop whitespace from both ends. -/
def stripL (s : List Char) : List Char :=
  ((s.dropWhile pySpace).reverse.dropWhile pySpace).reverse

/-- Substring test: `re.search` of a literal pattern succeeds iff the
literal occurs somewhere in the haystack. -/
def containsSub (needle : List Char) : List Char → Bool
  | [] => needle.isEmpty
  | c :: t => needle.isPrefixOf (c :: t) || containsSub needle t

/-- Auxiliary for `splitOnL`, fuelled by the input length. -/
def splitOnLAux (sep : List Char) : Nat → List Char → List Char → List (List Char)
  | 0, acc, s => [acc.reverse ++ s]
  | fuel + 1, acc, s =>
    if sep.isPrefixOf s then
      acc.reverse :: splitOnLAux sep fuel [] (s.drop sep.length)
    else
      match s with
      | [] => [acc.reverse]
      | c :: t => splitOnLAux sep fuel (c :: acc) t

/-- Python `str.split(sep)` for a non-empty separator. -/
def splitOnL (sep s : List Char) : List (List Char) :=
  splitOnLAux sep (s.length + 1) [] s

/-- Auxiliary for `removeAll`, fuelled by the input length. -/
def removeAllAux (pat : List Char) : Nat → List Char → List Char
  | 0, s => s
  | _ + 1, [] => []
  | fuel + 1, c :: t =>
    if pat.isPrefixOf (c :: t) ∧ pat ≠ [] then
      removeAllAux pat fuel ((c :: t).drop pat.length)
    else
      c :: removeAllAux pat fuel t

/-- Python `str.replace(pat, "")`: remove every non-overlapping occurrence,
scanning left to right. -/
def removeAll (pat s : List Char) : List Char :=
  removeAllAux pat (s.length + 1) s

/-! ### A small backtracking regular-expression engine

Python `re` patterns used by the source are embedded as `RE` terms and run
with a backtracking matcher.  `reMatches` returns every possible remainder
of the input after a match at the current position, ordered by Python's
backtracking priority (alternatives left to right, greedy repetitions
longest first, lazy repetitions shortest first); the match `re.search`
finds is the head of the list at the leftmost position with a non-empty
list.  The `fuel` argument only bounds recursion depth; call sites pass
more than the engine can consume on the patterns of this file. -/

inductive RE : Type where
  | lit : List Char → RE
  | one : (Char → Bool) → RE
  | seq : RE → RE → RE
  | alt : RE → RE → RE
  | rep : RE → Nat → Option Nat → Bool → RE

/-- Sequence a list of regex parts. -/
def seqs : List RE → RE
  | [] => .lit []
  | [r] => r
  | r :: rs => .seq r (seqs rs)

/-- All possible rests after matching `re` at the start of `s`, in
backtracking priority order. -/
def reMatches : Nat → RE → List Char → List (List Char)
  | 0, _, _ => []
  | _ + 1, .lit l, s => if l.isPrefixOf s then [s.drop l.length] else []
  | _ + 1, .one p, s =>
    match s with
    | [] => []
    | c :: t => if p c then [t] else []
  | fuel + 1, .seq a b, s =>
    (reMatches fuel a s).flatMap fun s2 => reMatches fuel b s2
  | fuel + 1, .alt a b, s => reMatches fuel a s ++ reMatches fuel b s
  | fuel + 1, .rep r lo hi greedy, s =>
    let stop : List (List Char) := if lo = 0 then [s] else []
    let canGo : Bool := match hi with | some 0 => false | _ => true
    let go : List (List Char) :=
      if canGo then
        (reMatches fuel r s).flatMap fun s2 =>
          if s2.length < s.length then
            reMatches fuel (.rep r (lo - 1) (hi.map (· - 1)) greedy) s2
          else []
      else []
    if greedy then go ++ stop else stop ++ go

/-- Fuel that is ample for every pattern in this file. -/
def matchFuel (s : List Char) : Nat := s.length + 64

/-- Auxiliary for `reSearch`: try each start position, leftmost first.
Returns the suffix at the match start and the rest after the match. -/
def reSearchAux (re : RE) : Nat → List Char → Option (List Char × List Char)
  | 0, _ => none
  | fuel + 1, s =>
    match (reMatches (matchFuel s) re s).head? with
    | some rest => some (s, rest)
    | none =>
      match s with
      | [] => none
      | _ :: t => reSearchAux re fuel t

/-- Python `re.search`: leftmost match. -/
def reSearch (re : RE) (s : List Char) : Option (List Char × List Char) :=
  reSearchAux re (s.length + 1) s

/-- Auxiliary for `reSubAll`, fuelled by the input length. -/
def reSubAux (re : RE) : Nat → List Char → List Char
  | 0, s => s
  | _ + 1, [] => []
  | fuel + 1, c :: t =>
    match (reMatches (matchFuel (c :: t)) re (c :: t)).head? with
    | some rest =>
      if rest.length < (c :: t).length then reSubAux re fuel rest
      else c :: reSubAux re fuel t
    | none => c :: reSubAux re fuel t

/-- Python `re.sub(re, "", s)`: delete every match, scanning left to right. -/
def reSubAll (re : RE) (s : List Char) : List Char :=
  reSubAux re (s.length + 1) s

/-- Whole match of a search result. -/
def matchedChars (p : List Char × List Char) : List Char :=
  p.1.take (p.1.length - p.2.length)

/-- For patterns of shape `literal ++ group-to-end`: the capture group of a
successful search, namely the whole match minus the leading literal. -/
def searchCapture (re : RE) (litLen : Nat) (s : List Char) : Option (List Char) :=
  (reSearch re s).map fun p => (matchedChars p).drop litLen

/-! Character classes of the source patterns (inputs are ASCII). -/

/-- Python `\w` (ASCII): letters, digits, underscore. -/
def wChar (c : Char) : Bool := c.isAlphanum || c = '_'

/-- Python `\s` (ASCII). -/
def sChar (c : Char) : Bool := c.isWhitespace

/-- Python `.` without `re.DOTALL`: any character except a newline. -/
def dotC (c : Char) : Bool := c ≠ '\n'

/-- Python `\d`. -/
def digitC (c : Char) : Bool := c.isDigit

/-- Class `(\d|[a-z])` of the MRU header pattern. -/
def digitOrLowerC (c : Char) : Bool := c.isDigit || ('a' ≤ c && c ≤ 'z')

/-! ### Artifact classifier (Json variant, `MaximumPlasoParserJson.py`)

A timeline line is a JSON object; the classifier only reads its `parser`
and `source_name` fields (other keys, like the rendered `message`, are
carried along but never consulted).  Every pattern in the two rule tables
below is a literal or an alternation of literals, so `re.search` of the
pattern succeeds exactly when one of the literals occurs in the field. -/

structure PlasoRecord where
  parser : String
  source_name : String
  message : String
deriving DecidableEq, Repr

/-- Rule table `d_regex_type_artefact` (ordered as in `__init__`). -/
def dRegexTypeArtefact : List (String × List String) :=
  [("evtx", ["winevtx"]),
   ("hive", ["winreg"]),
   ("db", ["sqlite", "esedb"]),
   ("winFile", ["lnk", "text", "prefetch"]),
   ("mft", ["filestat", "usnjrnl", "mft"])]

/-- Rule table `d_regex_artefact_by_source_name` (ordered as in `__init__`). -/
def dRegexArtefactBySourceName : List (String × List String) :=
  [("security", ["Microsoft-Windows-Security-Auditing"]),
   ("system", ["Service Control Manager"]),
   ("taskScheduler", ["TaskScheduler%4Operational.evtx"]),
   ("bits", ["Microsoft-Windows-Bits-Client"]),
   ("rdp_local", ["Microsoft-Windows-TerminalServices-LocalSessionManager"]),
   ("powershell", ["Microsoft-Windows-PowerShell", "PowerShell"]),
   ("wmi", ["Microsoft-Windows-WMI-Activity"]),
   ("application_experience", ["Microsoft-Windows-Application-Experience"]),
   ("windefender", ["Microsoft-Windows-Windows Defender"])]

/-- First key of an ordered rule table whose pattern matches the field. -/
def firstMatchingKey (table : List (String × List String)) (field : String) :
    Option String :=
  (table.find? fun kv => kv.2.any fun pat => containsSub pat.data field.data).map (·.1)

/-- Method `identify_type_artefact_by_parser`: first key of
`d_regex_type_artefact` whose pattern matches the record's `parser` field. -/
def identifyTypeArtefactByParser (line : PlasoRecord) : Option String :=
  firstMatchingKey dRegexTypeArtefact line.parser

/-- Method `identify_artefact_by_source_name` (Json variant): first key of
`d_regex_artefact_by_source_name` whose pattern matches `source_name`. -/
def identifyArtefactBySourceName (line : PlasoRecord) : Option String :=
  firstMatchingKey dRegexArtefactBySourceName line.source_name

/-! ### The main loop `parse_timeline` (claim C1)

Both the Json and the legacy variant read the timeline line by line inside
one `try` block that wraps the whole `for` loop:

    try:
        with open(path_to_tl) as timeline:
            for line in timeline:
                d_line = json.loads(line)
                type_artefact = self.identify_type_artefact_by_parser(d_line)
                if type_artefact:
                    self.assign_parser(d_line, type_artefact)
        self.close_files()
    except Exception:
        ...
        self.close_files()

A line is modelled as `Option PlasoRecord`: `some r` when `json.loads`
returns the record `r`, `none` when it raises.  The observable behaviour
is the list of records handed to `assign_parser`, paired with the artifact
type they were dispatched under.  An exception raised by `json.loads`
propagates out of the `for` loop to the run-level handler, so no later
line is processed. -/

def parseTimeline : List (Option PlasoRecord) → List (PlasoRecord × String)
  | [] => []
  | none :: _ => []
  | some r :: rest =>
    match identifyTypeArtefactByParser r with
    | some t => (r, t) :: parseTimeline rest
    | none => parseTimeline rest

/-- Modelled from the spec: the propagation policy of spec section 7
("every per-record failure is caught at the record boundary and converted
to produce nothing for this record, continue with the next").  Under that
policy a failing line is skipped and every remaining line is still
processed. -/
def parseTimelineSpec (lines : List (Option PlasoRecord)) :
    List (PlasoRecord × String) :=
  lines.filterMap fun l =>
    l.bind fun r => (identifyTypeArtefactByParser r).map fun t => (r, t)

/-! ### Event-log attribute lists

For event-log records the extractors run `xmltodict.parse` on the
`xml_string` payload and then walk `Event → EventData → Data`, a list of
attribute nodes carrying an optional `@Name` and an optional `#text` key.
The markup parser is an external collaborator; extractors receive the
attribute list directly. -/

structure XmlAttr where
  name : Option String
  text : Option String
deriving DecidableEq, Repr

/-! ### Security-log dispatch (claim C2)

Json variant (`MaximumPlasoParserJson.parse_security_evtx`): each event
code is handled only when the corresponding result-file attribute is
truthy, and `initialise_results_files` opens a file only when the
configuration flag is non-zero.  Legacy variant
(`MaximumPlasoParser.parse_security_evtx`): the dispatch tests only the
event code; the opened-file attributes and the configuration are not
consulted. -/

structure SecurityConfig where
  c4624 : Nat
  c4625 : Nat
  c4672 : Nat
  c4648 : Nat
  c4688 : Nat
deriving DecidableEq, Repr

/-- Truthiness of the opened result-file attributes after
`initialise_results_files`: a stream is open iff the flag is non-zero. -/
structure SecurityFiles where
  logon_res_file : Bool
  logon_failed_file : Bool
  logon_spe_file : Bool
  logon_exp_file : Bool
  new_proc_file : Bool
deriving DecidableEq, Repr

/-- Opened streams produced by `initialise_results_files` from the
configuration flags (`if self.config.get("4624", 0): ... open ...`). -/
def initialiseSecurityFiles (cfg : SecurityConfig) : SecurityFiles :=
  ⟨cfg.c4624 ≠ 0, cfg.c4625 ≠ 0, cfg.c4672 ≠ 0, cfg.c4648 ≠ 0, cfg.c4688 ≠ 0⟩

inductive SecExtractor : Type where
  | logon
  | failedLogon
  | speLogon
  | expLogon
  | newProc
deriving DecidableEq, Repr

/-- Json variant `parse_security_evtx`: sub-extractors invoked for a
record with the given event code, guarded by the opened streams. -/
def parseSecurityEvtxJson (files : SecurityFiles) (event_code : Int) :
    List SecExtractor :=
  (if event_code = 4624 ∧ files.logon_res_file then [SecExtractor.logon] else []) ++
  (if event_code = 4625 ∧ files.logon_failed_file then [SecExtractor.failedLogon] else []) ++
  (if event_code = 4672 ∧ files.logon_spe_file then [SecExtractor.speLogon] else []) ++
  (if event_code = 4648 ∧ files.logon_exp_file then [SecExtractor.expLogon] else []) ++
  (if event_code = 4688 ∧ files.new_proc_file then [SecExtractor.newProc] else [])

/-- Legacy variant `parse_security_evtx`: the dispatch tests only the
event code; neither the configuration nor the opened streams appear in
the function. -/
def parseSecurityEvtxLegacy (event_code : Int) : List SecExtractor :=
  (if event_code = 4624 then [SecExtractor.logon] else []) ++
  (if event_code = 4625 then [SecExtractor.failedLogon] else []) ++
  (if event_code = 4672 then [SecExtractor.speLogon] else []) ++
  (if event_code = 4648 then [SecExtractor.expLogon] else []) ++
  (if event_code = 4688 then [SecExtractor.newProc] else [])

/-! ### Logon extractor `parse_logon_from_xml` (claim C3)

Both the Json and the legacy variant share this code.  Five fields start
at the sentinel `"-"` and are overwritten by the `if`/`elif` chain while
walking the attribute list; the CSV row is then

    "{}|{}|{}|{}|{}|{}|{}|{}".format(ts_date, ts_time, event_code,
        subject_user_name, target_user_name, ip_address, ip_port, logon_type)

with `event_code = "4624"`. -/

structure LogonFields where
  subject_user_name : String
  target_user_name : String
  ip_address : String
  ip_port : String
  logon_type : String
deriving DecidableEq, Repr

/-- Attribute walk of `parse_logon_from_xml` (and of its three siblings for
codes 4625/4672/4648, which are textually identical). -/
def logonFold (event_data : List XmlAttr) : LogonFields :=
  event_data.foldl
    (fun st data =>
      if data.name.getD "" = "SubjectUserName" then
        { st with subject_user_name := data.text.getD "-" }
      else if data.name.getD "" = "TargetUserName" then
        { st with target_user_name := data.text.getD "-" }
      else if data.name.getD "" = "IpAddress" then
        { st with ip_address := data.text.getD "-" }
      else if data.name.getD "" = "IpPort" then
        { st with ip_port := data.text.getD "-" }
      else if data.name.getD "" = "LogonType" then
        { st with logon_type := data.text.getD "-" }
      else st)
    ⟨"-", "-", "-", "-", "-"⟩

/-- CSV row written by `parse_logon_from_xml` for one 4624 record. -/
def parseLogonFromXmlRow (ts_date ts_time : String) (event_data : List XmlAttr) :
    String :=
  let f := logonFold event_data
  String.intercalate "|"
    [ts_date, ts_time, "4624", f.subject_user_name, f.target_user_name,
     f.ip_address, f.ip_port, f.logon_type]

/-- Header list `l_csv_header_4624` written as the first line of the 4624
output file (Json variant; the legacy `l_res_4624_header` is the same up to
the capitalisation of "time"). -/
def lCsvHeader4624 : List String :=
  ["Date", "Time", "event_code", "logon_type", "subject_user_name",
   "target_user_name", "ip_address", "ip_port", "workstation_name"]

/-! ### BITS extractor `parse_bits_evtx_from_xml` (claim C5)

Thirteen optional fields start at the sentinel `"-"` and are overwritten
by an `if`/`elif` chain over the attribute list.  In the legacy variant
the CSV row interpolates the local variable `id`; in the Json variant the
variable was renamed to `identifiant` but the format call still passes
`id`, which in Python now denotes the builtin function and is rendered by
`str.format` as `<built-in function id>`. -/

structure BitsFields where
  user : String
  identifiant : String
  job_owner : String
  job_id : String
  job_title : String
  bytes_total : String
  bytes_transferred : String
  file_count : String
  file_length : String
  file_time : String
  name : String
  url : String
  process_path : String
deriving DecidableEq, Repr

/-- Attribute walk shared by both variants (field `identifiant` is the
variable called `id` in the legacy variant). -/
def bitsFold (event_data : List XmlAttr) : BitsFields :=
  event_data.foldl
    (fun st data =>
      if data.name.getD "" = "User" then { st with user := data.text.getD "-" }
      else if data.name.getD "" = "Id" then { st with identifiant := data.text.getD "-" }
      else if data.name.getD "" = "jobOwner" then { st with job_owner := data.text.getD "-" }
      else if data.name.getD "" = "jobId" then { st with job_id := data.text.getD "-" }
      else if data.name.getD "" = "jobTitle" then { st with job_title := data.text.getD "-" }
      else if data.name.getD "" = "bytesTotal" then { st with bytes_total := data.text.getD "-" }
      else if data.name.getD "" = "bytesTransferred" then { st with bytes_transferred := data.text.getD "-" }
      else if data.name.getD "" = "fileCount" then { st with file_count := data.text.getD "-" }
      else if data.name.getD "" = "fileLength" then { st with file_length := data.text.getD "-" }
      else if data.name.getD "" = "fileTime" then { st with file_time := data.text.getD "-" }
      else if data.name.getD "" = "name" then { st with name := data.text.getD "-" }
      else if data.name.getD "" = "url" then { st with url := data.text.getD "-" }
      else if data.name.getD "" = "processPath" then { st with process_path := data.text.getD "-" }
      else st)
    ⟨"-", "-", "-", "-", "-", "-", "-", "-", "-", "-", "-", "-", "-"⟩

/-- CSV row of the legacy variant: the `id` slot carries the extracted
variable.  The format string ends with a trailing separator. -/
def bitsRowLegacy (ts_date ts_time : String) (event_code : Nat)
    (event_data : List XmlAttr) : String :=
  let f := bitsFold event_data
  String.intercalate "|"
    [ts_date, ts_time, toString event_code, f.identifiant, f.job_id, f.job_title,
     f.job_owner, f.user, f.bytes_total, f.bytes_transferred, f.file_count,
     f.file_length, f.file_time, f.name, f.url, f.process_path] ++ "|"

/-- CSV row of the Json variant: the fourth slot interpolates the Python
builtin `id` (rendered `<built-in function id>`), not the extracted
`identifiant` value. -/
def bitsRowJson (ts_date ts_time : String) (event_code : Nat)
    (event_data : List XmlAttr) : String :=
  let f := bitsFold event_data
  String.intercalate "|"
    [ts_date, ts_time, toString event_code, "<built-in function id>", f.job_id,
     f.job_title, f.job_owner, f.user, f.bytes_total, f.bytes_transferred,
     f.file_count, f.file_length, f.file_time, f.name, f.url, f.process_path] ++ "|"

/-- Json variant `parse_bits`: rows written for one record, guarded by the
opened stream and the accepted event codes. -/
def parseBitsJson (bits_file : Bool) (ts_date ts_time : String)
    (event_code : Nat) (event_data : List XmlAttr) : List String :=
  if bits_file then
    if ["3", "4", "59", "60", "61"].contains (toString event_code) then
      [bitsRowJson ts_date ts_time event_code event_data]
    else []
  else []

/-- Legacy variant `parse_bits`: same gate on the accepted event codes,
with no stream guard. -/
def parseBitsLegacy (ts_date ts_time : String) (event_code : Nat)
    (event_data : List XmlAttr) : List String :=
  if ["3", "4", "59", "60", "61"].contains (toString event_code) then
    [bitsRowLegacy ts_date ts_time event_code event_data]
  else []

/-! ### Remote-desktop local-session reasons (claim C6)

Function `parse_rdp_local_evtx_from_xml` (identical in the Json and the
legacy variant) maps the stringified event code to a symbolic reason, and
`parse_rdp` forwards to it exactly the five codes below. -/

/-- Accepted local-session event codes in `parse_rdp`. -/
def rdpLocalAcceptedCodes : List String := ["21", "24", "25", "39", "40"]

/-- Reason chain of `parse_rdp_local_evtx_from_xml`. -/
def rdpLocalReason (event_code : String) : String :=
  if event_code = "21" then "AuthSuccess"
  else if event_code = "24" then "UserDisconnected"
  else if event_code = "25" then "UserReconnected"
  else if event_code = "39" then "UserHasBeenDisconnected"
  else if event_code = "40" then "UserHasBeenDisconnected"
  else "-"

/-- Gate of `parse_rdp` for a local-session record: the local extractor is
invoked iff `str(event_code)` is one of the five accepted codes (and the
local-rdp stream is open, in the Json variant). -/
def parseRdpInvokesLocal (local_rdp_file : Bool) (event_code : Nat) : Bool :=
  local_rdp_file && rdpLocalAcceptedCodes.contains (toString event_code)

/-! ### MRU / shell-bag extractor `parse_mru` (claim C4)

The function (identical in all three variants) distinguishes two source
shapes.  A `winreg/bagmru/shell_items` record yields one row from the
`name` and `shell_item_path` fields.  Otherwise, when the free-text
`entries` field is truthy, it is split on `"Index:"` and every sub-entry
is cleaned with

    re.sub(r'( \d{1,9} \[MRU Value \d{1,9}\]: Shell item path:)'
           r'|(<UNKNOWN: .*?>)'
           r'|((\d|[a-z]){1,9} \[MRU Value .{1,9}\]:)', '', entrie).strip()

and one row is written per sub-entry whose cleaned text is non-empty. -/

/-- First alternative of the MRU header pattern. -/
def mruHeaderAlt1 : RE :=
  seqs [.lit (" ".data), .rep (.one digitC) 1 (some 9) true,
        .lit (" [MRU Value ".data), .rep (.one digitC) 1 (some 9) true,
        .lit ("]: Shell item path:".data)]

/-- Second alternative of the MRU header pattern (lazy `.*?`). -/
def mruHeaderAlt2 : RE :=
  seqs [.lit ("<UNKNOWN: ".data), .rep (.one dotC) 0 none false, .lit (">".data)]

/-- Third alternative of the MRU header pattern. -/
def mruHeaderAlt3 : RE :=
  seqs [.rep (.one digitOrLowerC) 1 (some 9) true, .lit (" [MRU Value ".data),
        .rep (.one dotC) 1 (some 9) true, .lit ("]:".data)]

/-- The full MRU header pattern. -/
def mruHeaderRE : RE := .alt mruHeaderAlt1 (.alt mruHeaderAlt2 mruHeaderAlt3)

/-- Cleanup of one `"Index:"`-delimited sub-entry: delete every header
match, then strip whitespace. -/
def mruCleanEntry (entrie : List Char) : List Char :=
  stripL (reSubAll mruHeaderRE entrie)

/-- Fields of a record read by `parse_mru` (Json variant): `parser`, the
optional `name` / `shell_item_path` values (their `"-"` defaults are
applied at the `event.get` calls), and the optional `entries` blob. -/
structure MruEvent where
  parser : String
  name : Option String
  shell_item_path : Option String
  entries : Option String
deriving DecidableEq, Repr

/-- Rows written by `parse_mru` for one record, in CSV output mode.  The
`entries` branch runs only when the field is truthy (present and
non-empty, matching Python truthiness of `event.get("entries")`). -/
def parseMru (ts_date ts_time : String) (event : MruEvent) : List String :=
  if event.parser = "winreg/bagmru/shell_items" then
    [String.intercalate "|"
      [ts_date, ts_time, event.name.getD "-", event.shell_item_path.getD "-"]]
  else
    match event.entries with
    | none => []
    | some entries =>
      if entries = "" then []
      else
        (splitOnL ("Index:".data) entries.data).foldl
          (fun acc entrie =>
            let cleaned := mruCleanEntry entrie
            if cleaned = [] then acc
            else acc ++ [ts_date ++ "|" ++ ts_time ++ "|-|" ++ String.mk cleaned])
          []

/-! ### Shortcut-file extractor `parse_lnk` (CSV variant, claim C7)

The CSV variant works on raw delimited text lines.  `parse_lnk` splits the
line on commas, requires column 5 to be `lnk` and column 3 to be
`Windows Shortcut`, extracts a timestamp from column 0, and then tries
four sources for the path column of the row, in order:

    lnk_target       = re.search(r' Link target: ([\w\s\d\(\)\.\<\>\%\\\x7b\x7d\-\:]+)', line_clean)
    local_path_regex = re.search(r'Local path: ((?:[a-zA-Z]\:|\\\\[\w\s\.]+\\[\w\s\.$]+)\\(?:[\w\s\.]+\\)*(\w+\.\w+))', line_clean)
    env_path_regex   = re.search(r'env location: ([\w\s\d\(\)\.\<\>\%\\\x7b\x7d\-]+)', line_clean)

falling back to the raw column 4 when none matches (the two brace
characters of the character classes are written `\x7b`/`\x7d` above).
Note the environment-path class, unlike the link-target class, does not
contain `:`.  `line_clean` is the line with every literal backslash-t
sequence removed. -/

/-- Character class of the link-target capture
`[\w\s\d\(\)\.\<\>\%\\ brace brace \-\:]`. -/
def lnkTargetClass (c : Char) : Bool :=
  wChar c || sChar c || digitC c || c = '(' || c = ')' || c = '.' || c = '<' ||
  c = '>' || c = '%' || c = '\\' || c = Char.ofNat 123 || c = Char.ofNat 125 ||
  c = '-' || c = ':'

/-- Character class of the environment-path capture: the link-target class
without `:`. -/
def envPathClass (c : Char) : Bool :=
  wChar c || sChar c || digitC c || c = '(' || c = ')' || c = '.' || c = '<' ||
  c = '>' || c = '%' || c = '\\' || c = Char.ofNat 123 || c = Char.ofNat 125 ||
  c = '-'

/-- Class `[\w\s\.]` of the local-path pattern. -/
def wsDotC (c : Char) : Bool := wChar c || sChar c || c = '.'

/-- Class `[\w\s\.$]` of the local-path pattern. -/
def wsDotDollarC (c : Char) : Bool := wsDotC c || c = '$'

/-- Class `[a-zA-Z]`. -/
def alphaC (c : Char) : Bool := ('a' ≤ c && c ≤ 'z') || ('A' ≤ c && c ≤ 'Z')

/-- Pattern of the `lnk_target` search. -/
def lnkTargetRE : RE :=
  .seq (.lit (" Link target: ".data)) (.rep (.one lnkTargetClass) 1 none true)

/-- Pattern of the `env_path_regex` search. -/
def envPathRE : RE :=
  .seq (.lit ("env location: ".data)) (.rep (.one envPathClass) 1 none true)

/-- Pattern of the `local_path_regex` search. -/
def localPathRE : RE :=
  seqs [.lit ("Local path: ".data),
        .alt (.seq (.one alphaC) (.lit (":".data)))
             (seqs [.lit ("\\\\".data), .rep (.one wsDotC) 1 none true,
                    .lit ("\\".data), .rep (.one wsDotDollarC) 1 none true]),
        .lit ("\\".data),
        .rep (.seq (.rep (.one wsDotC) 1 none true) (.lit ("\\".data))) 0 none true,
        .rep (.one wChar) 1 none true, .lit (".".data), .rep (.one wChar) 1 none true]

/-- Pattern of the `cmd_argument` search `(cmd arguments: (.*?) )`. -/
def cmdArgumentRE : RE :=
  seqs [.lit ("cmd arguments: ".data), .rep (.one dotC) 0 none false,
        .lit (" ".data)]

/-- Pattern of the `description` search: an opening bracket, a lazy run,
a closing bracket. -/
def descriptionRE : RE :=
  seqs [.lit ("[".data), .rep (.one dotC) 0 none false, .lit ("]".data)]

/-- Timestamp pattern `d_regex_evtx["timestamp"]`:
four digits, dash, two digits, dash, two digits, `T`, three colon-separated
two-digit groups. -/
def timestampRE : RE :=
  seqs [.rep (.one digitC) 4 (some 4) true, .lit ("-".data),
        .rep (.one digitC) 2 (some 2) true, .lit ("-".data),
        .rep (.one digitC) 2 (some 2) true, .lit ("T".data),
        .rep (.one digitC) 2 (some 2) true, .lit (":".data),
        .rep (.one digitC) 2 (some 2) true, .lit (":".data),
        .rep (.one digitC) 2 (some 2) true]

/-- Capture of `cmd_argument.group(2)`: the lazy middle of the match,
between the literal (15 characters) and the final space. -/
def searchCmdArgument (s : List Char) : Option (List Char) :=
  (reSearch cmdArgumentRE s).map fun p => ((matchedChars p).drop 15).dropLast

/-- Capture of `description.group()`: the whole match. -/
def searchDescription (s : List Char) : Option (List Char) :=
  (reSearch descriptionRE s).map matchedChars

/-- Timestamp extraction of `parse_lnk`: `re.search(timestamp, l_col[0])`,
then `.group().split("T")`. -/
def searchTimestamp (s : List Char) : Option (List Char × List Char) :=
  (reSearch timestampRE s).map fun p =>
    match splitOnL ("T".data) (matchedChars p) with
    | d :: t :: _ => (d, t)
    | d :: _ => (d, [])
    | [] => ([], [])

/-- Python `str.format` of an optional value that may still be `None`
(`cmd_argument` and `description` are formatted unconverted when their
search failed). -/
def formatOpt : Option (List Char) → String
  | some v => String.mk v
  | none => "None"

/-- Rows written by `parse_lnk` (CSV variant, CSV output mode) for one
line: `none` models an uncaught exception (timestamp absent while the
guard holds, or a line with fewer than six columns), `some rows` a normal
return. -/
def parseLnkCsv (line : String) : Option (List String) :=
  let lcol := splitOnL (",".data) line.data
  match lcol.get? 5, lcol.get? 3, lcol.get? 4, lcol.get? 0 with
  | some type_entrie, some type_log, some col4, some col0 =>
    let line_clean := removeAll ("\\t".data) line.data
    let timestamp := searchTimestamp col0
    if type_entrie = "lnk".data ∧ type_log = "Windows Shortcut".data then
      let lnk_target := searchCapture lnkTargetRE 14 line_clean
      let local_path := searchCapture localPathRE 12 line_clean
      let cmd_argument := searchCmdArgument line_clean
      let description := searchDescription col4
      let env_path := searchCapture envPathRE 14 line_clean
      match timestamp with
      | none => none
      | some (ts0, ts1) =>
        let path : String :=
          match lnk_target with
          | some cap => String.mk cap
          | none =>
            match local_path with
            | some cap => String.mk cap
            | none =>
              match env_path with
              | some cap => String.mk cap
              | none => String.mk col4
        some [String.intercalate "|"
          [String.mk ts0, String.mk ts1, path, formatOpt cmd_argument,
           formatOpt description]]
    else some []
  | _, _, _, _ => none

/-! ### CSV-variant hive dispatch `parse_hives` (claim C9)

In `MaximumPlasoParserCsv`, `parse_hives` computes the subtype with
`identify_artefact_by_source_name` (an ordered scan of
`d_regex_artefact_by_source` over the raw text line) and then runs an
`if`/`elif` chain.  In the source, each of the first five branches is

    if artefact_subtype == "amcache":
        return
        self.parse_amcache(line)

with an unconditional `return` preceding the extractor call; only the
`run` branch calls its extractor.  To reason about reachability the
branch bodies are embedded at the statement level: a body is a list of
statements executed in order, and execution stops at the first `return`. -/

/-- Rule table `d_regex_artefact_by_source` of the CSV variant (ordered as
in `__init__`); every pattern is a literal or an alternation of
literals. -/
def dRegexArtefactBySourceCsv : List (String × List String) :=
  [("security", ["Microsoft-Windows-Security-Auditing"]),
   ("service", ["Service Control Manager"]),
   ("taskScheduler", ["Microsoft-Windows-TaskScheduler"]),
   ("bits", ["Microsoft-Windows-Bits-Client"]),
   ("rdp_local", ["Microsoft-Windows-TerminalServices-LocalSessionManager"]),
   ("powershell", ["Microsoft-Windows-PowerShell", "PowerShell"]),
   ("wmi", ["Microsoft-Windows-WMI-Activity"]),
   ("application_experience", ["Microsoft-Windows-Application-Experience"]),
   ("sam", ["windows_sam_users"]),
   ("amcache", ["Amcache Registry"]),
   ("app_compat", ["AppCompatCache Registry"]),
   ("run", ["windows_run"]),
   ("user_assist", ["userassist"]),
   ("mru", ["bagmru", "mru"]),
   ("ff_history", ["firefox_history"]),
   ("prefetch", ["prefetch"]),
   ("lnk", ["lnk"]),
   ("srum", ["srum"]),
   ("mft", ["usnjrnl", "mft", "filestat"])]

/-- Method `identify_artefact_by_source_name` of the CSV variant: first
key whose pattern matches anywhere in the raw line. -/
def identifyArtefactBySourceCsv (line : String) : Option String :=
  firstMatchingKey dRegexArtefactBySourceCsv line

/-- Names of the hive extractors referenced by `parse_hives`. -/
inductive HiveCall : Type where
  | amcache
  | appCompat
  | sam
  | userAssist
  | mru
  | run
deriving DecidableEq, Repr

/-- A statement of a `parse_hives` branch body. -/
inductive HiveStmt : Type where
  | ret
  | call : HiveCall → HiveStmt
deriving DecidableEq, Repr

/-- Branch bodies of the CSV `parse_hives` `if`/`elif` chain, statement by
statement as written in the source. -/
def parseHivesBody (artefact_subtype : Option String) : List HiveStmt :=
  if artefact_subtype = some "amcache" then [.ret, .call .amcache]
  else if artefact_subtype = some "appCompat" then [.ret, .call .appCompat]
  else if artefact_subtype = some "sam" then [.ret, .call .sam]
  else if artefact_subtype = some "userassist" then [.ret, .call .userAssist]
  else if artefact_subtype = some "mru" then [.ret, .call .mru]
  else if artefact_subtype = some "run" then [.call .run]
  else []

/-- Calls a body actually executes: statements run in order and execution
stops at the first `return`. -/
def executedCalls (body : List HiveStmt) : List HiveCall :=
  (body.takeWhile fun st => st ≠ HiveStmt.ret).filterMap fun st =>
    match st with
    | .call c => some c
    | .ret => none

/-- Extractor calls executed by the CSV `parse_hives` on one raw line. -/
def parseHivesCsv (line : String) : List HiveCall :=
  executedCalls (parseHivesBody (identifyArtefactBySourceCsv line))

/-! ### Windows-defender extractors (claim C10)

`parse_windef_detection_from_xml` and `parse_windef_action_from_xml`
(Json variant) fold the attribute list into six fields and then write.
In CSV output mode the row and the line feed both go to
`windefender_res_file`; in JSON output mode the record is serialised with
`json.dump(res, self.logon_res_file)` — the logon stream — and only the
line feed goes to `windefender_res_file`. -/

/-- Output streams of the Json variant that appear in these claims. -/
inductive OutStream : Type where
  | logon
  | windefender
deriving DecidableEq, Repr

/-- Data written to a stream: raw text, or a JSON object serialised by
`json.dump`. -/
inductive WriteData : Type where
  | text : String → WriteData
  | jsonObj : List (String × String) → WriteData
deriving DecidableEq, Repr

structure WindefFields where
  threat_name : String
  severity : String
  process_name : String
  detection_user : String
  path : String
  action : String
deriving DecidableEq, Repr

/-- Attribute walk of the windefender extractors.  The source uses three
consecutive statements per attribute: an `if` for `Action Name`, an `if`
for `Threat Name`, and an `if`/`elif` chain for `Severity Name`,
`Process Name`, `Detection User` and `Path`. -/
def windefFold (event_data : List XmlAttr) : WindefFields :=
  event_data.foldl
    (fun st data =>
      let st := if data.name.getD "" = "Action Name" then
          { st with action := data.text.getD "-" } else st
      let st := if data.name.getD "" = "Threat Name" then
          { st with threat_name := data.text.getD "-" } else st
      if data.name.getD "" = "Severity Name" then
        { st with severity := data.text.getD "-" }
      else if data.name.getD "" = "Process Name" then
        { st with process_name := data.text.getD "-" }
      else if data.name.getD "" = "Detection User" then
        { st with detection_user := data.text.getD "-" }
      else if data.name.getD "" = "Path" then
        { st with path := data.text.getD "-" }
      else st)
    ⟨"-", "-", "-", "-", "-", "-"⟩

/-- Writes performed by `parse_windef_detection_from_xml` for one record:
pairs of target stream and written data, in program order.  The event
code is the constant `"1116 - Detection"`. -/
def parseWindefDetectionWrites (output_type case_name machine_name
    ts_date ts_time : String) (event_data : List XmlAttr) :
    List (OutStream × WriteData) :=
  let f := windefFold event_data
  if output_type = "csv" then
    [(.windefender, .text (String.intercalate "|"
        [ts_date, ts_time, "1116 - Detection", f.threat_name, f.severity,
         f.detection_user, f.process_name, f.action])),
     (.windefender, .text "\n")]
  else
    [(.logon, .jsonObj
        [("caseName", case_name),
         ("workstation_name", machine_name),
         ("timestamp", ts_date ++ "T" ++ ts_time),
         ("eventCode", "1116 - Detection"),
         ("threat_name", f.threat_name),
         ("severity", f.severity),
         ("detection_user", f.detection_user),
         ("process_name", f.process_name),
         ("path", f.path),
         ("action", f.action)]),
     (.windefender, .text "\n")]

/-! ## Concrete inputs used by the theorems -/

/-- A well-formed security event-log record. -/
def secRecord : PlasoRecord :=
  ⟨"winevtx", "Microsoft-Windows-Security-Auditing", "msg"⟩

/-- Attribute list of spec Scenario 1: a 4624 logon with subject `alice`,
target `bob`, source `10.0.0.5:3389`, logon type `10`. -/
def scn1EventData : List XmlAttr :=
  [⟨some "SubjectUserName", some "alice"⟩,
   ⟨some "TargetUserName", some "bob"⟩,
   ⟨some "IpAddress", some "10.0.0.5"⟩,
   ⟨some "IpPort", some "3389"⟩,
   ⟨some "LogonType", some "10"⟩]

/-- The all-disabled configuration. -/
def zeroSecurityConfig : SecurityConfig := ⟨0, 0, 0, 0, 0⟩

/-- Entries blob of spec Scenario 5. -/
def scn5Blob : String :=
  "Index: 0 [MRU Value 0]: Shell item path: C:\\A  Index: 1 [MRU Value 1]: Shell item path: C:\\B"

/-- An MRU record carrying the Scenario 5 blob (its parser is one of the
`mru`-classified parsers other than `winreg/bagmru/shell_items`). -/
def scn5MruEvent : MruEvent :=
  ⟨"winreg/mrulistex_string", none, none, some scn5Blob⟩

/-! ## Helper lemmas -/

/-- Length of a fold that appends one row per element whose cleanup is
non-empty. -/
theorem foldlRowsLength {α β : Type} (g : α → List Char) (f : α → β) :
    ∀ (l : List α) (init : List β),
      (l.foldl (fun acc x => if g x = [] then acc else acc ++ [f x]) init).length
        = init.length + (l.filter fun x => g x ≠ []).length := by
  intro l
  induction l with
  | nil => intro init; simp
  | cons x xs ih =>
    intro init
    by_cases h : g x = []
    · simp [h, ih]
    · simp [h, ih, List.filter_cons]
      omega

/-! ## Claim C1 -/

/-- Claim C1, counterexample.  The claim says a line that fails to
deserialize is skipped and processing continues with the next line.  On
the input `[bad line, good security record]` the engine dispatches
nothing at all, while the spec's propagation policy (and the same good
record on its own) yields one dispatched record: the run-level `try`
wraps the whole loop, so the failure aborts the remaining lines. -/
theorem parseTimelineCounterexample :
    parseTimeline [none, some secRecord] = []
    ∧ parseTimelineSpec [none, some secRecord] = [(secRecord, "evtx")]
    ∧ parseTimeline [some secRecord] = [(secRecord, "evtx")]
    ∧ parseTimeline [none, some secRecord] ≠ parseTimelineSpec [none, some secRecord] := by
  decide

/-- Claim C1, amended.  A deserialization failure is caught by the
handler around the whole loop, not at the record boundary: on an input
whose prefix is failure-free, everything after the first failing line is
dropped, and on a failure-free input the engine agrees with the spec's
per-record policy. -/
theorem parseTimelineRunLevelCatch : ∀ (pre suf : List (Option PlasoRecord)),
    (∀ x ∈ pre, x ≠ none) →
    parseTimeline (pre ++ none :: suf) = parseTimeline pre
    ∧ parseTimeline pre = parseTimelineSpec pre
  | [], _, _ => ⟨rfl, rfl⟩
  | none :: _, _, h => absurd rfl (h none (List.mem_cons_self _ _))
  | some r :: xs, suf, h => by
    have ih := parseTimelineRunLevelCatch xs suf
      (fun x hx => h x (List.mem_cons_of_mem _ hx))
    constructor
    · show parseTimeline (some r :: (xs ++ none :: suf)) = _
      cases hid : identifyTypeArtefactByParser r <;>
        simp [parseTimeline, hid, ih.1]
    · cases hid : identifyTypeArtefactByParser r <;>
        simp [parseTimeline, parseTimelineSpec, hid, ih.2, parseTimelineSpec]

/-- Claim C1, witness for the amended theorem at a concrete input. -/
theorem parseTimelineRunLevelCatchWitness :
    parseTimeline ([some secRecord] ++ none :: [some secRecord])
      = parseTimeline [some secRecord]
    ∧ parseTimeline [some secRecord] = parseTimelineSpec [some secRecord] :=
  parseTimelineRunLevelCatch [some secRecord] [some secRecord] (by decide)

/-! ## Claim C2 -/

/-- Claim C2, counterexample.  With every enabled flag at 0 no security
stream is opened, and the Json variant dispatches nothing for a 4624
record — but the legacy variant's `parse_security_evtx` never consults
the flags and still invokes the logon extractor, so extraction work is
performed for a disabled artifact type. -/
theorem disabledArtifactCounterexample :
    initialiseSecurityFiles zeroSecurityConfig = ⟨false, false, false, false, false⟩
    ∧ parseSecurityEvtxJson (initialiseSecurityFiles zeroSecurityConfig) 4624 = []
    ∧ parseSecurityEvtxLegacy 4624 = [SecExtractor.logon] := by
  decide

/-- Claim C2, amended.  In the Json-variant engine a disabled artifact
type is skipped before any extraction work: when a configuration flag is
0 the corresponding stream is not opened and `parse_security_evtx` never
invokes that sub-extractor (hence writes no row).  The legacy variant
dispatches on the event code alone and does not satisfy the claim. -/
theorem disabledArtifactSkippedJson (cfg : SecurityConfig) (event_code : Int) :
    (cfg.c4624 = 0 →
      SecExtractor.logon ∉ parseSecurityEvtxJson (initialiseSecurityFiles cfg) event_code)
    ∧ (cfg.c4625 = 0 →
      SecExtractor.failedLogon ∉ parseSecurityEvtxJson (initialiseSecurityFiles cfg) event_code)
    ∧ (cfg.c4672 = 0 →
      SecExtractor.speLogon ∉ parseSecurityEvtxJson (initialiseSecurityFiles cfg) event_code)
    ∧ (cfg.c4648 = 0 →
      SecExtractor.expLogon ∉ parseSecurityEvtxJson (initialiseSecurityFiles cfg) event_code)
    ∧ (cfg.c4688 = 0 →
      SecExtractor.newProc ∉ parseSecurityEvtxJson (initialiseSecurityFiles cfg) event_code) := by
  refine ⟨fun h => ?_, fun h => ?_, fun h => ?_, fun h => ?_, fun h => ?_⟩ <;>
    simp [parseSecurityEvtxJson, initialiseSecurityFiles, h]

/-- Claim C2, witness: with the all-zero configuration the Json variant
does not invoke the logon extractor on a 4624 record. -/
theorem disabledArtifactSkippedJsonWitness :
    SecExtractor.logon ∉
      parseSecurityEvtxJson (initialiseSecurityFiles zeroSecurityConfig) 4624 :=
  (disabledArtifactSkippedJson zeroSecurityConfig 4624).1 rfl

/-! ## Claim C3 -/

/-- Claim C3.  The claim (and the header row the code itself writes)
places `logon_type` in the fourth column, but `parse_logon_from_xml`
interpolates the fields in the order subject, target, IP address, port,
logon-type: on the Scenario 1 record the row is
`date|time|4624|alice|bob|10.0.0.5|3389|10`, not
`date|time|4624|10|alice|bob|10.0.0.5|3389`, and its fourth column is
`alice` where the header announces `logon_type`. -/
theorem logonRowContradictsHeader :
    parseLogonFromXmlRow "2024-01-01" "12:00:00" scn1EventData
      = "2024-01-01|12:00:00|4624|alice|bob|10.0.0.5|3389|10"
    ∧ parseLogonFromXmlRow "2024-01-01" "12:00:00" scn1EventData
      ≠ String.intercalate "|"
          ["2024-01-01", "12:00:00", "4624", "10", "alice", "bob", "10.0.0.5", "3389"]
    ∧ lCsvHeader4624.get? 3 = some "logon_type"
    ∧ (splitOnL ("|".data)
        (parseLogonFromXmlRow "2024-01-01" "12:00:00" scn1EventData).data).get? 3
      = some ("alice".data) := by
  decide

/-! ## Claim C4 -/

/-- Claim C4.  For a record handled by the free-text branch of
`parse_mru` (parser other than `winreg/bagmru/shell_items`, non-empty
entries blob), the number of emitted rows equals the number of
`"Index:"`-delimited sub-entries that are non-empty after stripping the
header patterns, and it is zero when every sub-entry is empty after
cleanup. -/
theorem mruFanOutLaw (ts_date ts_time : String) (event : MruEvent)
    (hparser : event.parser ≠ "winreg/bagmru/shell_items")
    (blob : String) (hent : event.entries = some blob) (hblob : blob ≠ "") :
    (parseMru ts_date ts_time event).length
      = ((splitOnL ("Index:".data) blob.data).filter
          fun e => mruCleanEntry e ≠ []).length
    ∧ ((∀ e ∈ splitOnL ("Index:".data) blob.data, mruCleanEntry e = []) →
        parseMru ts_date ts_time event = []) := by
  have hrw : parseMru ts_date ts_time event
      = (splitOnL ("Index:".data) blob.data).foldl
          (fun acc entrie =>
            if mruCleanEntry entrie = [] then acc
            else acc ++
              [ts_date ++ "|" ++ ts_time ++ "|-|" ++ String.mk (mruCleanEntry entrie)])
          [] := by
    simp [parseMru, hparser, hent, hblob]
  have hlen := foldlRowsLength mruCleanEntry
      (fun entrie => ts_date ++ "|" ++ ts_time ++ "|-|" ++ String.mk (mruCleanEntry entrie))
      (splitOnL ("Index:".data) blob.data) []
  constructor
  · rw [hrw]
    simpa using hlen
  · intro hall
    have hfil : (splitOnL ("Index:".data) blob.data).filter
        (fun e => mruCleanEntry e ≠ []) = [] := by
      simp only [List.filter_eq_nil_iff]
      intro e he
      simp [hall e he]
    rw [hrw]
    have h0 : ((splitOnL ("Index:".data) blob.data).foldl
        (fun acc entrie =>
          if mruCleanEntry entrie = [] then acc
          else acc ++
            [ts_date ++ "|" ++ ts_time ++ "|-|" ++ String.mk (mruCleanEntry entrie)])
        []).length = 0 := by
      rw [hlen, hfil]
      rfl
    exact List.length_eq_zero.mp h0

/-- Claim C4, witness: the fan-out law applied to the Scenario 5 record. -/
theorem mruFanOutLawWitness :
    (parseMru "2024-05-05" "10:00:00" scn5MruEvent).length
      = ((splitOnL ("Index:".data) scn5Blob.data).filter
          fun e => mruCleanEntry e ≠ []).length
    ∧ ((∀ e ∈ splitOnL ("Index:".data) scn5Blob.data, mruCleanEntry e = []) →
        parseMru "2024-05-05" "10:00:00" scn5MruEvent = []) :=
  mruFanOutLaw "2024-05-05" "10:00:00" scn5MruEvent (by decide) scn5Blob rfl (by decide)

/-- Sanity: the Scenario 5 blob fans out to exactly the two cleaned rows
the spec expects. -/
example :
    parseMru "2024-05-05" "10:00:00" scn5MruEvent
      = ["2024-05-05|10:00:00|-|C:\\A", "2024-05-05|10:00:00|-|C:\\B"] := by
  decide

/-! ## Claim C5 -/

/-- Claim C5.  On a BITS record with an accepted event code (3) and an
empty attribute list, both variants emit exactly one row (the record is
not skipped) and the legacy row carries the sentinel in all thirteen
optional fields — but the Json variant's row carries the rendering of the
Python builtin `id`, not the sentinel, in the `id` column (the format
call was not updated when the variable was renamed to `identifiant`), so
the claim fails on the Json variant. -/
theorem bitsZeroAttributesRow :
    parseBitsJson true "2024-01-01" "12:00:00" 3 []
      = ["2024-01-01|12:00:00|3|<built-in function id>|-|-|-|-|-|-|-|-|-|-|-|-|"]
    ∧ parseBitsLegacy "2024-01-01" "12:00:00" 3 []
      = ["2024-01-01|12:00:00|3|-|-|-|-|-|-|-|-|-|-|-|-|-|"]
    ∧ (splitOnL ("|".data)
        "2024-01-01|12:00:00|3|<built-in function id>|-|-|-|-|-|-|-|-|-|-|-|-|".data).get? 3
      ≠ some ("-".data) := by
  decide

/-! ## Claim C6 -/

/-- Claim C6.  `parse_rdp` accepts exactly the five local-session event
codes 21, 24, 25, 39, 40, and `parse_rdp_local_evtx_from_xml` maps them
to AuthSuccess, UserDisconnected, UserReconnected and (for both 39 and
40) UserHasBeenDisconnected; in particular code 40 yields
UserHasBeenDisconnected. -/
theorem rdpLocalReasonMapping :
    rdpLocalAcceptedCodes = ["21", "24", "25", "39", "40"]
    ∧ rdpLocalReason "21" = "AuthSuccess"
    ∧ rdpLocalReason "24" = "UserDisconnected"
    ∧ rdpLocalReason "25" = "UserReconnected"
    ∧ rdpLocalReason "39" = "UserHasBeenDisconnected"
    ∧ rdpLocalReason "40" = "UserHasBeenDisconnected"
    ∧ rdpLocalReason "39" = rdpLocalReason "40"
    ∧ parseRdpInvokesLocal true 40 = true
    ∧ parseRdpInvokesLocal true 22 = false := by
  decide

/-! ## Claim C7 -/

/-- Scenario 3 as a raw CSV line: a shortcut record whose free text
contains `env location: C:\Foo` and neither `Link target` nor
`Local path`. -/
def scn3Line : String :=
  "2021-01-02T03:04:05,Creation Time,x,Windows Shortcut,[Empty desc] env location: C:\\Foo,lnk"

/-- A shortcut line containing both an environment location and a link
target. -/
def lnkPrioLineA : String :=
  "2021-01-02T03:04:05,Creation Time,x,Windows Shortcut,[d] env location: Q Link target: C\\T.exe,lnk"

/-- A shortcut line containing both an environment location and a local
path. -/
def lnkPrioLineB : String :=
  "2021-01-02T03:04:05,Creation Time,x,Windows Shortcut,[d] env location: Q Local path: C:\\D\\f.txt,lnk"

/-- A shortcut line matching none of the three patterns. -/
def lnkPrioLineC : String :=
  "2021-01-02T03:04:05,Creation Time,x,Windows Shortcut,plain message without markers,lnk"

/-- Claim C7, counterexample.  The Scenario 3 record contains
`env location: C:\Foo` and neither `Link target` nor `Local path`, yet
the extracted path column of the emitted row is `"C"`, not `"C:\Foo"`:
the environment-path pattern's character class does not contain `:`, so
the capture stops before the colon. -/
theorem lnkEnvPathCounterexample :
    parseLnkCsv scn3Line = some ["2021-01-02|03:04:05|C|None|[Empty desc]"]
    ∧ containsSub ("env location: C:\\Foo".data) scn3Line.data = true
    ∧ containsSub ("Link target".data) scn3Line.data = false
    ∧ containsSub ("Local path".data) scn3Line.data = false
    ∧ (splitOnL ("|".data) "2021-01-02|03:04:05|C|None|[Empty desc]".data).get? 2
      = some ("C".data)
    ∧ "C" ≠ "C:\\Foo" := by
  decide

/-- Claim C7, amended.  The path column is produced by trying link-target
first, then local-path, then environment-path, falling back to the raw
column 4 — but on the Scenario 3 record the extracted path is `"C"`, not
`"C:\Foo"`, because the environment-path capture class has no colon.
The three companion lines exercise the priority order: a link target wins
over an environment location, a local path wins over an environment
location, and with no pattern matching the raw field is emitted. -/
theorem lnkPriorityAmended :
    parseLnkCsv scn3Line = some ["2021-01-02|03:04:05|C|None|[Empty desc]"]
    ∧ parseLnkCsv lnkPrioLineA = some ["2021-01-02|03:04:05|C\\T.exe|None|[d]"]
    ∧ parseLnkCsv lnkPrioLineB = some ["2021-01-02|03:04:05|C:\\D\\f.txt|None|[d]"]
    ∧ parseLnkCsv lnkPrioLineC
      = some ["2021-01-02|03:04:05|plain message without markers|None|None"]
    ∧ containsSub ("env location: ".data) lnkPrioLineA.data = true
    ∧ containsSub ("env location: ".data) lnkPrioLineB.data = true := by
  decide

/-! ## Claim C8 -/

/-- Claim C8.  Classification is modelled as a pure function of the
record (the source methods read only the record fields and the constant
rule tables built in `__init__`, and mutate nothing): its result depends
only on the `parser` and `source_name` fields, so repeated calls on the
same record — or on any record agreeing on those fields — return the same
artifact type. -/
theorem classifierDeterministic (r1 r2 : PlasoRecord)
    (hp : r1.parser = r2.parser) (hs : r1.source_name = r2.source_name) :
    identifyTypeArtefactByParser r1 = identifyTypeArtefactByParser r2
    ∧ identifyArtefactBySourceName r1 = identifyArtefactBySourceName r2 := by
  unfold identifyTypeArtefactByParser identifyArtefactBySourceName
  rw [hp, hs]
  exact ⟨rfl, rfl⟩

/-- Claim C8, witness: two records equal on `parser` and `source_name`
but with different `message` payloads classify identically. -/
theorem classifierDeterministicWitness :
    identifyTypeArtefactByParser ⟨"winevtx", "Microsoft-Windows-Security-Auditing", "a"⟩
      = identifyTypeArtefactByParser ⟨"winevtx", "Microsoft-Windows-Security-Auditing", "b"⟩
    ∧ identifyArtefactBySourceName ⟨"winevtx", "Microsoft-Windows-Security-Auditing", "a"⟩
      = identifyArtefactBySourceName ⟨"winevtx", "Microsoft-Windows-Security-Auditing", "b"⟩ :=
  classifierDeterministic _ _ rfl rfl

/-! ## Claim C9 -/

/-- Claim C9.  In the CSV-variant engine, executing `parse_hives` on any
input line never reaches a call to the amcache, app-compat-cache, SAM,
user-assist or MRU extractor: each of those branches returns
unconditionally before the call (only the `run` branch can execute its
extractor call). -/
theorem hiveBranchesUnreachable (line : String) :
    (parseHivesCsv line).filter
      (fun c => [HiveCall.amcache, HiveCall.appCompat, HiveCall.sam,
                 HiveCall.userAssist, HiveCall.mru].contains c) = [] := by
  unfold parseHivesCsv parseHivesBody
  repeat' split
  all_goals rfl

/-! ## Claim C10 -/

/-- Claim C10.  In JSON output mode the windefender detection extractor
serialises its record into the logon (4624) output stream — a stream of a
different artifact type — and writes only the line feed to the
windefender stream, so the claim that an antivirus record writes only to
the antivirus stream fails; in CSV output mode both writes do go to the
windefender stream. -/
theorem windefWritesToLogonStream :
    (parseWindefDetectionWrites "json" "case1" "ws1" "2024-01-01" "12:00:00" []).map
        Prod.fst
      = [OutStream.logon, OutStream.windefender]
    ∧ (parseWindefDetectionWrites "csv" "case1" "ws1" "2024-01-01" "12:00:00" []).map
        Prod.fst
      = [OutStream.windefender, OutStream.windefender]
    ∧ OutStream.logon ≠ OutStream.windefender := by
  decide

end MPP


